import Mathlib

/-!
Verification of `src/cli/src/layout.rs`: the Apollo home-directory layout
resolver.  The Rust fragment reads the platform home directory via
`dirs::home_dir() : Option<PathBuf>` and joins fixed relative segments.
We embed `PathBuf` as an absoluteness flag together with the list of path
segments; `PathBuf::join` with an absolute argument replaces the receiver,
and with a relative argument appends its segments (Rust `Path::join`
semantics).  The ambient platform provider becomes an explicit
`Option PathBuf` argument, and `Fallible` is `Except ErrorDetails`.
-/

namespace Federation

/-- Model of Rust `std::path::PathBuf`: whether the path is absolute, and
its ordered list of normal segments. -/
structure PathBuf where
  absolute : Bool
  segments : List String
  deriving DecidableEq, Repr

/-- A relative path consisting of the single segment `s`, as produced by
the `&str` literals `".apollo"` and `"bin"` at the `join` call sites. -/
def PathBuf.rel (s : String) : PathBuf :=
  ⟨false, [s]⟩

/-- Rust `PathBuf::join`: if the argument is absolute it replaces `self`,
otherwise its segments are appended onto `self`. -/
def PathBuf.join (p q : PathBuf) : PathBuf :=
  if q.absolute then q else ⟨p.absolute, p.segments ++ q.segments⟩

/-- The one variant of `crate::errors::ErrorDetails` used by `layout.rs`. -/
inductive ErrorDetails where
  | NoHomeEnvironmentVar
  deriving DecidableEq, Repr

/-- `crate::errors::Fallible<T>`: a result that is either a value or an
`ErrorDetails`. -/
abbrev Fallible (α : Type) : Type :=
  Except ErrorDetails α

/-- Rust `Option::ok_or`, as used in `apollo_home` to turn the absent home
directory into the `NoHomeEnvironmentVar` error. -/
def okOr (o : Option PathBuf) (e : ErrorDetails) : Fallible PathBuf :=
  match o with
  | some v => Except.ok v
  | none => Except.error e

/-- `apollo_home` from `layout.rs`, with the platform provider
`dirs::home_dir()` made an explicit argument:
`let home = dirs::home_dir().ok_or(ErrorDetails::NoHomeEnvironmentVar)?;`
`Ok(home.join(".apollo"))`. -/
def apollo_home (home_dir : Option PathBuf) : Fallible PathBuf := do
  let home ← okOr home_dir ErrorDetails.NoHomeEnvironmentVar
  return home.join (PathBuf.rel ".apollo")

/-- `apollo_home_bin` from `layout.rs`:
`let home = apollo_home()?; Ok(home.join("bin"))`. -/
def apollo_home_bin (home_dir : Option PathBuf) : Fallible PathBuf := do
  let home ← apollo_home home_dir
  return home.join (PathBuf.rel "bin")

/-- The ambient state visible to the process: the provider's answer, the
set of existing filesystem paths, and the environment variables.  Only
`homeDir` is ever consulted by `layout.rs`. -/
structure World where
  homeDir : Option PathBuf
  fsEntries : List PathBuf
  envVars : List (String × String)
  deriving DecidableEq

/-- `apollo_home` as a state-passing computation over the ambient world:
`dirs::home_dir()` is a read-only query, so the world is threaded through
unchanged and only `homeDir` feeds the result. -/
def runApolloHome (w : World) : Fallible PathBuf × World :=
  (apollo_home w.homeDir, w)

/-- `apollo_home_bin` as a state-passing computation over the ambient
world. -/
def runApolloHomeBin (w : World) : Fallible PathBuf × World :=
  (apollo_home_bin w.homeDir, w)

end Federation

namespace Federation

/-- C1: for every home directory `H` supplied by the provider,
`apollo_home` succeeds and returns exactly `H` with the fixed segment
`.apollo` appended, preserving `H` verbatim as the prefix. -/
theorem apollo_home_joins_dot_apollo (H : PathBuf) :
    apollo_home (some H) =
      Except.ok ⟨H.absolute, H.segments ++ [".apollo"]⟩ := by
  simp [apollo_home, okOr, PathBuf.join, PathBuf.rel]

/-- C2: for every home directory `H` supplied by the provider,
`apollo_home_bin` succeeds and returns exactly `H/.apollo/bin`. -/
theorem apollo_home_bin_joins_dot_apollo_bin (H : PathBuf) :
    apollo_home_bin (some H) =
      Except.ok ⟨H.absolute, H.segments ++ [".apollo", "bin"]⟩ := by
  simp [apollo_home_bin, apollo_home, okOr, PathBuf.join, PathBuf.rel]

/-- C3: when the provider yields no home directory, both `apollo_home`
and `apollo_home_bin` fail with `NoHomeEnvironmentVar`. -/
theorem no_home_yields_error :
    apollo_home none = Except.error ErrorDetails.NoHomeEnvironmentVar ∧
    apollo_home_bin none = Except.error ErrorDetails.NoHomeEnvironmentVar :=
  ⟨rfl, rfl⟩

/-- C4: `apollo_home` and `apollo_home_bin` fail if and only if the
provider supplies no home directory, and `NoHomeEnvironmentVar` is the
only possible error value. -/
theorem error_iff_no_home (hd : Option PathBuf) (e : ErrorDetails) :
    (apollo_home hd = Except.error e ↔
        hd = none ∧ e = ErrorDetails.NoHomeEnvironmentVar) ∧
    (apollo_home_bin hd = Except.error e ↔
        hd = none ∧ e = ErrorDetails.NoHomeEnvironmentVar) := by
  cases hd <;> cases e <;>
    simp [apollo_home, apollo_home_bin, okOr]

/-- C5: `apollo_home_bin` is exactly `apollo_home` with the fixed segment
`bin` joined on success and any failure propagated unchanged. -/
theorem apollo_home_bin_eq_map_join_bin (hd : Option PathBuf) :
    apollo_home_bin hd =
      Except.map (fun p => p.join (PathBuf.rel "bin")) (apollo_home hd) := by
  cases hd <;> rfl

/-- C6: both operations are deterministic functions of the provider's
output: under an unchanged environment, two successive calls return equal
results. -/
theorem deterministic_of_same_env (hd hd' : Option PathBuf)
    (h : hd = hd') :
    apollo_home hd = apollo_home hd' ∧
    apollo_home_bin hd = apollo_home_bin hd' := by
  subst h
  exact ⟨rfl, rfl⟩

/-- Witness for C6 at the provider output `/home/alice`. -/
theorem deterministic_of_same_env_witness :
    apollo_home (some ⟨true, ["home", "alice"]⟩) =
      apollo_home (some ⟨true, ["home", "alice"]⟩) ∧
    apollo_home_bin (some ⟨true, ["home", "alice"]⟩) =
      apollo_home_bin (some ⟨true, ["home", "alice"]⟩) :=
  deterministic_of_same_env (some ⟨true, ["home", "alice"]⟩)
    (some ⟨true, ["home", "alice"]⟩) rfl

/-- C7: when the provider returns an absolute path, both `apollo_home`
and `apollo_home_bin` return absolute paths. -/
theorem outputs_absolute (H : PathBuf) (h : H.absolute = true) :
    (∃ p, apollo_home (some H) = Except.ok p ∧ p.absolute = true) ∧
    (∃ q, apollo_home_bin (some H) = Except.ok q ∧ q.absolute = true) := by
  refine ⟨⟨⟨H.absolute, H.segments ++ [".apollo"]⟩, ?_, h⟩,
    ⟨⟨H.absolute, H.segments ++ [".apollo", "bin"]⟩, ?_, h⟩⟩
  · simp [apollo_home, okOr, PathBuf.join, PathBuf.rel]
  · simp [apollo_home_bin, apollo_home, okOr, PathBuf.join, PathBuf.rel]

/-- Witness for C7 at the absolute provider path `/home/alice`. -/
theorem outputs_absolute_witness :
    (∃ p, apollo_home (some ⟨true, ["home", "alice"]⟩) = Except.ok p ∧
        p.absolute = true) ∧
    (∃ q, apollo_home_bin (some ⟨true, ["home", "alice"]⟩) = Except.ok q ∧
        q.absolute = true) :=
  outputs_absolute ⟨true, ["home", "alice"]⟩ rfl

/-- C8: both operations leave the ambient world unchanged, and their
results depend only on the provider's answer — in particular they never
consult the filesystem entries, so the returned path is not validated for
existence. -/
theorem no_side_effects (w w' : World) (h : w.homeDir = w'.homeDir) :
    (runApolloHome w).2 = w ∧
    (runApolloHomeBin w).2 = w ∧
    (runApolloHome w).1 = (runApolloHome w').1 ∧
    (runApolloHomeBin w).1 = (runApolloHomeBin w').1 := by
  exact ⟨rfl, rfl, by simp [runApolloHome, h], by simp [runApolloHomeBin, h]⟩

/-- Witness for C8: two worlds sharing a provider answer but with
different filesystem contents and environment variables. -/
theorem no_side_effects_witness :
    (runApolloHome ⟨some ⟨true, ["home", "alice"]⟩, [], []⟩).2 =
      ⟨some ⟨true, ["home", "alice"]⟩, [], []⟩ ∧
    (runApolloHomeBin ⟨some ⟨true, ["home", "alice"]⟩, [], []⟩).2 =
      ⟨some ⟨true, ["home", "alice"]⟩, [], []⟩ ∧
    (runApolloHome ⟨some ⟨true, ["home", "alice"]⟩, [], []⟩).1 =
      (runApolloHome ⟨some ⟨true, ["home", "alice"]⟩,
        [⟨true, ["etc"]⟩], [("PATH", "/usr/bin")]⟩).1 ∧
    (runApolloHomeBin ⟨some ⟨true, ["home", "alice"]⟩, [], []⟩).1 =
      (runApolloHomeBin ⟨some ⟨true, ["home", "alice"]⟩,
        [⟨true, ["etc"]⟩], [("PATH", "/usr/bin")]⟩).1 :=
  no_side_effects ⟨some ⟨true, ["home", "alice"]⟩, [], []⟩
    ⟨some ⟨true, ["home", "alice"]⟩,
      [⟨true, ["etc"]⟩], [("PATH", "/usr/bin")]⟩ rfl

/-- C9: for every provider result, both operations terminate with a value
of the `Fallible` type — success with a path, or the single error
`NoHomeEnvironmentVar`; no other exit exists. -/
theorem total_two_outcomes (hd : Option PathBuf) :
    ((∃ p, apollo_home hd = Except.ok p) ∨
      apollo_home hd = Except.error ErrorDetails.NoHomeEnvironmentVar) ∧
    ((∃ p, apollo_home_bin hd = Except.ok p) ∨
      apollo_home_bin hd = Except.error ErrorDetails.NoHomeEnvironmentVar) := by
  cases hd <;> simp [apollo_home, apollo_home_bin, okOr]

/-- C10: the provider's path is neither validated nor normalized: the
result's segments are exactly the input's with `.apollo` appended and the
result's absoluteness equals the input's, so a relative or empty provider
path yields a relative result. -/
theorem no_validation_or_normalization (h : PathBuf) :
    (apollo_home (some h)).map PathBuf.segments =
      Except.ok (h.segments ++ [".apollo"]) ∧
    (apollo_home (some h)).map PathBuf.absolute = Except.ok h.absolute ∧
    apollo_home (some ⟨false, []⟩) = Except.ok ⟨false, [".apollo"]⟩ ∧
    apollo_home_bin (some ⟨false, []⟩) =
      Except.ok ⟨false, [".apollo", "bin"]⟩ := by
  refine ⟨?_, ?_, rfl, rfl⟩ <;>
    simp [apollo_home, okOr, PathBuf.join, PathBuf.rel, Except.map]

end Federation
